import Mathlib

/-!
Shallow embedding of `backend/services/code_executor.py`.

The engine `execute_code(code, language)` stages user source text into a fresh
temporary directory, optionally compiles it, runs it in a subprocess with a
per-language timeout, and returns a result dict with fields
`output`, `error`, `exit_code`, `execution_time`.

Operating-system effects (binary lookup, file writes, subprocess execution,
temporary-directory creation and cleanup) are modelled by an oracle `Env`:
each effectful primitive of the Python code reads its outcome from the
oracle.  Python exceptions are modelled by the `Except PyExn` result type;
an `Except.error` value means the Python call raises to its caller.
A `Trace` records the filesystem/process footprint of one call so that
claims about staging and cleanup can be stated.
-/

namespace CodeExecutor

/-- Python exceptions that the engine's code can raise or catch:
`subprocess.TimeoutExpired`, `FileNotFoundError` (with its `str(e)` message),
and any other `Exception` (with its `str(e)` message). -/
inductive PyExn where
  | timeoutExpired
  | fileNotFound (msg : String)
  | other (msg : String)
deriving DecidableEq

/-- Result of a `subprocess.run` call that completed within its timeout:
captured stdout/stderr text, the exit code, and the wall-clock duration
(seconds) that `time.time()` differencing around the call would measure. -/
structure CompletedProcess where
  stdout : String
  stderr : String
  returncode : Int
  duration : ℚ
deriving DecidableEq

/-- Oracle outcome for one `subprocess.run` invocation: either the process
completes (with a natural duration; the embedding raises
`subprocess.TimeoutExpired` when that duration exceeds the `timeout`
argument), or the invocation itself raises (e.g. `FileNotFoundError`
when the binary does not exist). -/
inductive SubOutcome where
  | completes (stdout stderr : String) (returncode : Int) (duration : ℚ)
  | raises (e : PyExn)
deriving DecidableEq

/-- The result dict returned by `execute_code`
(`output`, `error`, `exit_code`, `execution_time`). -/
structure ExecResult where
  output : String
  error : Option String
  exit_code : Int
  execution_time : ℚ
deriving DecidableEq

/-- Filesystem/process footprint of one `execute_code` call:
whether the `tempfile.TemporaryDirectory` staging directory was created and
whether it was removed again, the files written inside it (path, content),
and the argv of every subprocess that was launched, in order. -/
structure Trace where
  tempDirCreated : Bool := false
  tempDirRemoved : Bool := false
  filesWritten : List (String × String) := []
  calls : List (List String) := []
deriving DecidableEq

/-- The operating-system oracle for one `execute_code` call.
`which` models `shutil.which`; `isExecFile p` models
`os.path.isfile(p) and os.access(p, os.X_OK)`; `home` is the expansion of
`~`; `tempDirName` is the name `tempfile.TemporaryDirectory` would produce;
`mkTempDirExn` / `cleanupExn` are the exceptions (if any) raised by creating
resp. cleaning up the temporary directory; `writeExn p` is the exception (if
any) raised by `Path(p).write_text`; `mkdirExn` by `Path.mkdir`; `run i` is
the outcome of the i-th `subprocess.run` call of this execution. -/
structure Env where
  which : String → Option String
  isExecFile : String → Bool
  home : String
  tempDirName : String
  mkTempDirExn : Option PyExn
  cleanupExn : Option PyExn
  mkdirExn : Option PyExn
  writeExn : String → Option PyExn
  run : Nat → SubOutcome

/-- One entry of the `EXECUTION_CONFIG` dict. -/
structure LangConfig where
  command : List String
  extension : String
  timeout : ℚ
  compile_command : Option (List String) := none
  requires_project : Bool := false
  project_template : String := ""
deriving DecidableEq

/-- `EXECUTION_CONFIG['python']`. -/
def pythonConfig : LangConfig :=
  { command := ["python3", "{file}"], extension := ".py", timeout := 10 }

/-- `EXECUTION_CONFIG['java']`. -/
def javaConfig : LangConfig :=
  { command := ["java", "{class_name}"], extension := ".java", timeout := 10,
    compile_command := some ["javac", "{file}"] }

/-- `EXECUTION_CONFIG['ruby']`. -/
def rubyConfig : LangConfig :=
  { command := ["ruby", "{file}"], extension := ".rb", timeout := 10 }

/-- `EXECUTION_CONFIG['php']`. -/
def phpConfig : LangConfig :=
  { command := ["php", "{file}"], extension := ".php", timeout := 10 }

/-- `EXECUTION_CONFIG['cpp']`. -/
def cppConfig : LangConfig :=
  { command := ["./{executable}"], extension := ".cpp", timeout := 10,
    compile_command := some ["g++", "{file}", "-o", "{executable}"] }

/-- `EXECUTION_CONFIG['c']`. -/
def cConfig : LangConfig :=
  { command := ["./{executable}"], extension := ".c", timeout := 10,
    compile_command := some ["gcc", "{file}", "-o", "{executable}"] }

/-- `EXECUTION_CONFIG['csharp']`. -/
def csharpConfig : LangConfig :=
  { command := ["dotnet", "run", "--project", "{project_dir}"], extension := ".cs",
    timeout := 10, requires_project := true,
    project_template := "<Project Sdk=\"Microsoft.NET.Sdk\">\n  <PropertyGroup>\n    <OutputType>Exe</OutputType>\n    <TargetFramework>net8.0</TargetFramework>\n    <ImplicitUsings>enable</ImplicitUsings>\n    <Nullable>enable</Nullable>\n  </PropertyGroup>\n</Project>" }

/-- `EXECUTION_CONFIG['go']`. -/
def goConfig : LangConfig :=
  { command := ["go", "run", "{file}"], extension := ".go", timeout := 10 }

/-- `EXECUTION_CONFIG['rust']`. -/
def rustConfig : LangConfig :=
  { command := ["rustc", "{file}", "-o", "{executable}", "&&", "./{executable}"],
    extension := ".rs", timeout := 15 }

/-- The `EXECUTION_CONFIG` dict, as the partial map its exact-match lookups use:
`EXECUTION_CONFIG l = some cfg` iff `l` is a key, mirroring
`language in EXECUTION_CONFIG` / `EXECUTION_CONFIG[language]`. -/
def EXECUTION_CONFIG (language : String) : Option LangConfig :=
  if language = "python" then some pythonConfig
  else if language = "java" then some javaConfig
  else if language = "ruby" then some rubyConfig
  else if language = "php" then some phpConfig
  else if language = "cpp" then some cppConfig
  else if language = "c" then some cConfig
  else if language = "csharp" then some csharpConfig
  else if language = "go" then some goConfig
  else if language = "rust" then some rustConfig
  else none

/-- The `LANGUAGE_INSTALL_MESSAGES` dict as a partial map; `.get(k, d)` is
modelled as `(LANGUAGE_INSTALL_MESSAGES k).getD d`. -/
def LANGUAGE_INSTALL_MESSAGES (language : String) : Option String :=
  if language = "php" then
    some "PHP is not installed. Install it with: brew install php (macOS) or apt-get install php (Linux)"
  else if language = "ruby" then
    some "Ruby is not installed. Install it with: brew install ruby (macOS) or apt-get install ruby (Linux)"
  else if language = "java" then
    some "Java is not installed. Install it with: brew install openjdk (macOS) or apt-get install default-jdk (Linux)"
  else if language = "go" then
    some "Go is not installed. Install it from https://go.dev/dl/"
  else if language = "rust" then
    some "Rust is not installed. Install it from https://rustup.rs/"
  else if language = "cpp" then
    some "C++ compiler (g++) is not installed. Install it with: brew install gcc (macOS) or apt-get install build-essential (Linux)"
  else if language = "c" then
    some "C compiler (gcc) is not installed. Install it with: brew install gcc (macOS) or apt-get install build-essential (Linux)"
  else if language = "csharp" then
    some "Dotnet is not installed. Install it from https://dotnet.microsoft.com/download"
  else if language = "python" then
    some "Python 3 is not installed. Install it from https://www.python.org/downloads/"
  else none

/-- Python `str.split(sep)` worker over character lists: scan left to right,
cutting at each leftmost non-overlapping occurrence of `pat`.  The fuel
argument (always at least the number of characters left) makes the
recursion structural, so the definition evaluates inside the kernel. -/
def pySplitOnGo (pat : List Char) : Nat → List Char → List Char → List (List Char)
  | 0, _, acc => [acc.reverse]
  | _ + 1, [], acc => [acc.reverse]
  | fuel + 1, c :: rest, acc =>
    if pat.isPrefixOf (c :: rest) then
      acc.reverse :: pySplitOnGo pat fuel ((c :: rest).drop pat.length) []
    else pySplitOnGo pat fuel rest (c :: acc)

/-- Python `str.split(sep)` for a nonempty separator (the only way the code
uses it): the pieces of `s` between the non-overlapping occurrences of
`pat`, keeping empty pieces, `[s]` when `pat` does not occur. -/
def pySplitOn (s pat : String) : List String :=
  if pat = "" then [s]
  else (pySplitOnGo pat.data (s.data.length + 1) s.data []).map String.mk

/-- Python substring containment `pat in s` (for nonempty `pat`). -/
def containsSub (s pat : String) : Bool :=
  decide ((pySplitOn s pat).length > 1)

/-- Python `str.startswith(pat)`. -/
def pyStartsWith (s pat : String) : Bool :=
  pat.data.isPrefixOf s.data

/-- Python `str.lower()`. -/
def pyLower (s : String) : String :=
  String.mk (s.data.map Char.toLower)

/-- Python `str.upper()`. -/
def pyUpper (s : String) : String :=
  String.mk (s.data.map Char.toUpper)

/-- Python `str.strip()`: drop leading and trailing whitespace. -/
def pyStrip (s : String) : String :=
  String.mk (((s.data.dropWhile Char.isWhitespace).reverse.dropWhile Char.isWhitespace).reverse)

/-- Splitting a character list at every character satisfying `p`
(worker for Python's no-argument `str.split()`). -/
def splitPredGo (p : Char → Bool) : List Char → List Char → List (List Char)
  | [], acc => [acc.reverse]
  | c :: rest, acc =>
    if p c then acc.reverse :: splitPredGo p rest []
    else splitPredGo p rest (c :: acc)

/-- Python `str.split()` with no argument: split on whitespace runs,
discarding empty pieces. -/
def pySplitWS (s : String) : List String :=
  ((splitPredGo Char.isWhitespace s.data []).filter (fun l => !l.isEmpty)).map String.mk

/-- Python `str.replace(pat, rep)` (and `str.format` placeholder
substitution): replace every non-overlapping occurrence of `pat`. -/
def pyReplace (s pat rep : String) : String :=
  String.intercalate rep (pySplitOn s pat)

/-- Python truthy-or on strings: `a or b` (used as
`compile_result.stderr or 'Compilation failed'`). -/
def pyOr (a b : String) : String :=
  if a = "" then b else a

/-- Python `str.capitalize()`: first character upper-cased, the rest
lower-cased. -/
def pyCapitalize (s : String) : String :=
  match s.toList with
  | [] => ""
  | c :: rest => String.mk (c.toUpper :: rest.map Char.toLower)

/-- Python `round(x, 3)` on the measured duration: rounding to millisecond
precision (tie-breaking of binary floats is abstracted to ordinary
rounding on ℚ). -/
def round3 (q : ℚ) : ℚ :=
  ((round (q * 1000) : ℤ) : ℚ) / 1000

/-- The fixed fallback locations of `check_command_exists` /
`get_command_path`: `/opt/homebrew/bin`, `/usr/local/bin`, and
`os.path.expanduser('~/.cargo/bin')`. -/
def homebrewPaths (env : Env) : List String :=
  ["/opt/homebrew/bin", "/usr/local/bin", env.home ++ "/.cargo/bin"]

/-- `check_command_exists(command)`: `shutil.which` first, then the
Homebrew/cargo fallback locations (`os.path.isfile` + `os.access X_OK`). -/
def check_command_exists (env : Env) (command : String) : Bool :=
  if (env.which command).isSome then true
  else (homebrewPaths env).any (fun path => env.isExecFile (path ++ "/" ++ command))

/-- `get_command_path(command)`: full path from `shutil.which`, else the
first fallback location hit, else the original command string. -/
def get_command_path (env : Env) (command : String) : String :=
  match env.which command with
  | some cmd_path => cmd_path
  | none =>
    match (homebrewPaths env).find? (fun path => env.isExecFile (path ++ "/" ++ command)) with
    | some path => path ++ "/" ++ command
    | none => command

/-- Drop the final dot-extension of a file name
(`pathlib.PurePath` suffix removal, for names with a nonempty stem). -/
def dropExt (name : String) : String :=
  let parts := pySplitOn name "."
  if parts.length ≤ 1 then name
  else String.intercalate "." parts.dropLast

/-- `Path.with_suffix('')` on a path string: drop the extension of the last
component. -/
def withSuffixEmpty (p : String) : String :=
  match (pySplitOn p "/").reverse with
  | [] => p
  | lastC :: restRev => String.intercalate "/" ((dropExt lastC :: restRev).reverse)

/-- `Path.name`: the last component of a path string. -/
def pathName (p : String) : String :=
  (pySplitOn p "/").getLastD p

/-- Lines 217-224: scan `code.split('\n')` for the first line containing
`'public class'`; the first whitespace-separated token of
`line.split('public class')[1]` becomes the class name (`break`); if that
token list is empty, `[0]` raises `IndexError('list index out of range')`;
if no line matches, the initial value `'Main'` stands. -/
def extract_class_name_go : List String → Except PyExn String
  | [] => Except.ok "Main"
  | line :: rest =>
    if containsSub line "public class" then
      let parts := pySplitOn line "public class"
      if parts.length > 1 then
        match pySplitWS (parts.getD 1 "") with
        | [] => Except.error (PyExn.other "list index out of range")
        | tok :: _ => Except.ok (pyStrip tok)
      else extract_class_name_go rest
    else extract_class_name_go rest

/-- Java class-name extraction over the whole source text (lines 217-224). -/
def extract_class_name (code : String) : Except PyExn String :=
  extract_class_name_go (pySplitOn code "\n")

/-- Lines 341-351: filter rustup info/warning/blank lines out of the Rust
compiler's stderr. `keptLines` is the list comprehension
`[line for line in stderr.split('\n') if not (line.startswith('info:') or
line.startswith('warning:') or line.strip() == '')]`. -/
def keptLines (s : String) : List String :=
  (pySplitOn s "\n").filter
    (fun line => !(pyStartsWith line "info:" || pyStartsWith line "warning:" || pyStrip line == ""))

/-- Lines 341-351 as a whole: when stderr is truthy, replace it by the kept
lines re-joined with newlines, or by the empty string when no line is kept. -/
def filterRustStderr (s : String) : String :=
  if s ≠ "" then
    let filtered := keptLines s
    if filtered ≠ [] then String.intercalate "\n" filtered else ""
  else s

/-- `Path(p).write_text(content)` (line 231 etc.): may raise per the oracle;
on success the written file is recorded in the trace. -/
def writeFileExpl (env : Env) (path content : String) (tr : Trace) :
    Except PyExn Unit × Trace :=
  match env.writeExn path with
  | some e => (Except.error e, tr)
  | none => (Except.ok (), { tr with filesWritten := tr.filesWritten ++ [(path, content)] })

/-- `project_dir.mkdir()` (line 297): may raise per the oracle. -/
def mkdirExpl (env : Env) (tr : Trace) : Except PyExn Unit × Trace :=
  match env.mkdirExn with
  | some e => (Except.error e, tr)
  | none => (Except.ok (), tr)

/-- `subprocess.run(argv, ..., timeout=timeout)`: the oracle outcome of the
next call (indexed by how many subprocesses were launched before); the call
is recorded in the trace; a completion whose natural duration exceeds the
timeout raises `subprocess.TimeoutExpired` instead. -/
def runSubExpl (env : Env) (argv : List String) (timeout : ℚ) (tr : Trace) :
    Except PyExn CompletedProcess × Trace :=
  let tr1 : Trace := { tr with calls := tr.calls ++ [argv] }
  match env.run tr.calls.length with
  | SubOutcome.raises e => (Except.error e, tr1)
  | SubOutcome.completes out err rc dur =>
    if timeout < dur then (Except.error PyExn.timeoutExpired, tr1)
    else (Except.ok ⟨out, err, rc, dur⟩, tr1)

/-- Lines 146-211: the per-language toolchain presence checks, run before
any staging; `some r` is the early-returned missing-toolchain result. -/
def toolchainCheck (env : Env) (language : String) : Option ExecResult :=
  if language = "php" then
    if !check_command_exists env "php" then
      some ⟨"", some ("PHP runtime not found. " ++
        (LANGUAGE_INSTALL_MESSAGES "php").getD "Please install PHP to run PHP code."), 1, 0⟩
    else none
  else if language = "ruby" then
    if !check_command_exists env "ruby" then
      some ⟨"", some ("Ruby runtime not found. " ++
        (LANGUAGE_INSTALL_MESSAGES "ruby").getD "Please install Ruby to run Ruby code."), 1, 0⟩
    else none
  else if language = "java" then
    if !check_command_exists env "java" || !check_command_exists env "javac" then
      some ⟨"", some ("Java runtime not found. " ++
        (LANGUAGE_INSTALL_MESSAGES "java").getD "Please install Java JDK to run Java code."), 1, 0⟩
    else none
  else if language = "go" then
    if !check_command_exists env "go" then
      some ⟨"", some ("Go runtime not found. " ++
        (LANGUAGE_INSTALL_MESSAGES "go").getD "Please install Go to run Go code."), 1, 0⟩
    else none
  else if language = "rust" then
    if !check_command_exists env "rustc" then
      some ⟨"", some ("Rust compiler not found. " ++
        (LANGUAGE_INSTALL_MESSAGES "rust").getD "Please install Rust to run Rust code."), 1, 0⟩
    else none
  else if language = "cpp" ∨ language = "c" then
    let compiler := if language = "cpp" then "g++" else "gcc"
    if !check_command_exists env compiler then
      some ⟨"", some (pyUpper compiler ++ " compiler not found. " ++
        (LANGUAGE_INSTALL_MESSAGES language).getD "Please install a C/C++ compiler."), 1, 0⟩
    else none
  else if language = "csharp" then
    if !check_command_exists env "dotnet" then
      some ⟨"", some ("Dotnet runtime not found. " ++
        (LANGUAGE_INSTALL_MESSAGES "csharp").getD "Please install .NET SDK to run C# code."), 1, 0⟩
    else none
  else if language = "python" then
    if !check_command_exists env "python3" then
      some ⟨"", some ("Python 3 not found. " ++
        (LANGUAGE_INSTALL_MESSAGES "python").getD "Please install Python 3 to run Python code."), 1, 0⟩
    else none
  else none

/-- Lines 395-437: the three `except` clauses. `TimeoutExpired` yields the
124 result with `execution_time = timeout`; `FileNotFoundError` and generic
`Exception` parse the message for a missing-command pattern and otherwise
yield the generic `Execution error:` result with exit code 1. -/
def handle_exn (language : String) (timeout : ℚ) (e : PyExn) : ExecResult :=
  match e with
  | PyExn.timeoutExpired =>
    ⟨"", some ("Execution timed out after " ++ toString timeout ++ " seconds."),
      124, timeout⟩
  | PyExn.fileNotFound msg =>
    if containsSub msg "No such file or directory" || containsSub (pyLower msg) "not found" then
      let cmd_name := if containsSub msg "\x27" then (pySplitOn msg "\x27").getD 1 "" else "command"
      let lang_msg := (LANGUAGE_INSTALL_MESSAGES language).getD
        ("Please install " ++ cmd_name ++ " to run " ++ language ++ " code.")
      ⟨"", some (pyCapitalize cmd_name ++ " not found. " ++ lang_msg), 1, 0⟩
    else ⟨"", some ("Execution error: " ++ msg), 1, 0⟩
  | PyExn.other msg =>
    if containsSub msg "No such file or directory" || containsSub (pyLower msg) "not found" then
      let cmd_name := if containsSub msg "\x27" then (pySplitOn msg "\x27").getD 1 "" else language
      let lang_msg := (LANGUAGE_INSTALL_MESSAGES language).getD
        ("Please install the required runtime for " ++ language ++ ".")
      ⟨"", some ("Runtime not found: " ++ cmd_name ++ ". " ++ lang_msg), 1, 0⟩
    else ⟨"", some ("Execution error: " ++ msg), 1, 0⟩

/-- Line 246-249 `part.format(file=..., executable=...)` on a compile-command
template part. -/
def formatFileExec (part file executable : String) : String :=
  pyReplace (pyReplace part "{file}" file) "{executable}" executable

/-- Lines 366-371: resolve a bare leading command token of the run argv
through `get_command_path`. -/
def resolveExecHead (env : Env) (cmd : List String) : List String :=
  match cmd with
  | [] => []
  | first_cmd :: rest =>
    if !containsSub first_cmd "/" && !pyStartsWith first_cmd "." then
      get_command_path env first_cmd :: rest
    else first_cmd :: rest

/-- Lines 373-393: launch the run subprocess (after head resolution) and
build the normal result: `output` = stdout, `error` = stderr iff exit code
is nonzero, `execution_time` = the wall-clock duration measured around this
call only, rounded via `round(_, 3)`. -/
def runFinal (env : Env) (cfg : LangConfig) (exec_cmd : List String) (tr : Trace) :
    Except PyExn ExecResult × Trace :=
  let exec_cmd := resolveExecHead env exec_cmd
  match runSubExpl env exec_cmd cfg.timeout tr with
  | (Except.error e, tr1) => (Except.error e, tr1)
  | (Except.ok r, tr1) =>
    let output := r.stdout
    let error := if r.returncode ≠ 0 then some r.stderr else none
    (Except.ok ⟨output, error, r.returncode, round3 r.duration⟩, tr1)

/-- Lines 294-363: per-language preparation of the execution command
(C# project scaffold, Java class name, C/C++ executable, Rust separate
compile step) followed by the run step. -/
def prepareAndRun (env : Env) (code language : String) (cfg : LangConfig)
    (temp_dir file_path : String) (tr : Trace) : Except PyExn ExecResult × Trace :=
  if language = "csharp" ∧ cfg.requires_project then
    let project_dir := temp_dir ++ "/Project"
    match mkdirExpl env tr with
    | (Except.error e, tr1) => (Except.error e, tr1)
    | (Except.ok _, tr1) =>
      match writeFileExpl env (project_dir ++ "/Project.csproj") cfg.project_template tr1 with
      | (Except.error e, tr2) => (Except.error e, tr2)
      | (Except.ok _, tr2) =>
        match writeFileExpl env (project_dir ++ "/Program.cs") code tr2 with
        | (Except.error e, tr3) => (Except.error e, tr3)
        | (Except.ok _, tr3) =>
          let exec_cmd := cfg.command.map (fun part => pyReplace part "{project_dir}" project_dir)
          runFinal env cfg exec_cmd tr3
  else if language = "java" then
    let class_name := dropExt (pathName file_path)
    runFinal env cfg ["java", class_name] tr
  else if language = "cpp" ∨ language = "c" then
    let executable := withSuffixEmpty file_path
    let exec_cmd := cfg.command.map (fun part => pyReplace part "{executable}" (pathName executable))
    runFinal env cfg exec_cmd tr
  else if language = "rust" then
    let executable := withSuffixEmpty file_path
    let rustc_path := get_command_path env "rustc"
    match runSubExpl env [rustc_path, file_path, "-o", executable] cfg.timeout tr with
    | (Except.error e, tr1) => (Except.error e, tr1)
    | (Except.ok cr, tr1) =>
      let stderrF := filterRustStderr cr.stderr
      if cr.returncode ≠ 0 then
        (Except.ok ⟨"", some (pyOr stderrF "Compilation failed"), cr.returncode, 0⟩, tr1)
      else runFinal env cfg ["./" ++ pathName executable] tr1
  else
    let exec_cmd := cfg.command.map (fun part => pyReplace part "{file}" file_path)
    runFinal env cfg exec_cmd tr

/-- Lines 273-292: the Java compile step (after the file has been staged
under the extracted class name). -/
def javaCompileStep (env : Env) (code language : String) (cfg : LangConfig)
    (temp_dir file_path : String) (tr : Trace) : Except PyExn ExecResult × Trace :=
  if language = "java" then
    let javac_path := get_command_path env "javac"
    match runSubExpl env [javac_path, file_path] cfg.timeout tr with
    | (Except.error e, tr1) => (Except.error e, tr1)
    | (Except.ok cr, tr1) =>
      if cr.returncode ≠ 0 then
        (Except.ok ⟨"", some (pyOr cr.stderr "Compilation failed"), cr.returncode, 0⟩, tr1)
      else prepareAndRun env code language cfg temp_dir file_path tr1
  else prepareAndRun env code language cfg temp_dir file_path tr

/-- Lines 244-271: the generic compile step for languages with a
`compile_command` other than csharp/rust/java, returning the compile-failure
result immediately on a nonzero compiler exit. -/
def genericCompileStep (env : Env) (code language : String) (cfg : LangConfig)
    (temp_dir file_path : String) (tr : Trace) : Except PyExn ExecResult × Trace :=
  match cfg.compile_command with
  | some cc =>
    if ¬(language = "csharp" ∨ language = "rust" ∨ language = "java") then
      let compile_cmd := cc.map
        (fun part => formatFileExec part file_path (withSuffixEmpty file_path))
      let compile_cmd := match compile_cmd with
        | [] => []
        | c0 :: rest => get_command_path env c0 :: rest
      match runSubExpl env compile_cmd cfg.timeout tr with
      | (Except.error e, tr1) => (Except.error e, tr1)
      | (Except.ok cr, tr1) =>
        if cr.returncode ≠ 0 then
          (Except.ok ⟨"", some (pyOr cr.stderr "Compilation failed"), cr.returncode, 0⟩, tr1)
        else javaCompileStep env code language cfg temp_dir file_path tr1
    else javaCompileStep env code language cfg temp_dir file_path tr
  | none => javaCompileStep env code language cfg temp_dir file_path tr

/-- Lines 215-393, the body of the `try:` block inside the
`with tempfile.TemporaryDirectory()` scope: stage the source file (Java
derives its name from the class name), then compile/run per language.
An `Except.error` value is an exception propagating out of the `try` body
into the `except` clauses. -/
def execute_body (env : Env) (code language : String) (cfg : LangConfig)
    (temp_dir : String) (tr : Trace) : Except PyExn ExecResult × Trace :=
  let named : Except PyExn String :=
    if language = "java" then
      match extract_class_name code with
      | Except.error e => Except.error e
      | Except.ok class_name => Except.ok (temp_dir ++ "/" ++ class_name ++ cfg.extension)
    else Except.ok (temp_dir ++ "/main" ++ cfg.extension)
  match named with
  | Except.error e => (Except.error e, tr)
  | Except.ok file_path =>
    match writeFileExpl env file_path code tr with
    | (Except.error e, tr1) => (Except.error e, tr1)
    | (Except.ok _, tr1) =>
      genericCompileStep env code language cfg temp_dir file_path tr1

/-- `execute_code(code, language)` (lines 128-437).  The `with
tempfile.TemporaryDirectory()` scope encloses the `try/except`: exceptions
raised by the `except`-guarded body are converted into results, but an
exception raised while creating or cleaning up the temporary directory
itself propagates (`Except.error`).  On a cleanup exception the directory's
removal is not recorded, since `shutil`'s recursive removal may have failed
partway. -/
def execute_code (env : Env) (code language0 : String) : Except PyExn ExecResult × Trace :=
  let language := pyLower language0
  match EXECUTION_CONFIG language with
  | none =>
    (Except.ok ⟨"", some ("Language " ++ language ++ " is not supported for execution."),
      1, 0⟩, {})
  | some cfg =>
    match toolchainCheck env language with
    | some r => (Except.ok r, {})
    | none =>
      match env.mkTempDirExn with
      | some e => (Except.error e, {})
      | none =>
        let tr0 : Trace :=
          { tempDirCreated := true, tempDirRemoved := false, filesWritten := [], calls := [] }
        let br := execute_body env code language cfg env.tempDirName tr0
        let res : ExecResult :=
          match br.1 with
          | Except.ok r => r
          | Except.error e => handle_exn language cfg.timeout e
        match env.cleanupExn with
        | some e => (Except.error e, br.2)
        | none => (Except.ok res, { br.2 with tempDirRemoved := true })

/-- Well-formedness of the oracle: a completed subprocess has a nonnegative wall-clock duration, as a real `time.time()` difference always is. -/
def runsWF (env : Env) : Prop :=
  ∀ i out err rc dur, env.run i = SubOutcome.completes out err rc dur → 0 ≤ dur

/-- The binaries whose presence the per-language checks of lines 146-211 require: the run binary, the compile binary where a compile command exists (javac for Java), and the project-runner binary (dotnet) for the project-based language. -/
def requiredCmds (language : String) : List String :=
  if language = "php" then ["php"]
  else if language = "ruby" then ["ruby"]
  else if language = "java" then ["java", "javac"]
  else if language = "go" then ["go"]
  else if language = "rust" then ["rustc"]
  else if language = "cpp" then ["g++"]
  else if language = "c" then ["gcc"]
  else if language = "csharp" then ["dotnet"]
  else if language = "python" then ["python3"]
  else []

/-- The capitalized-runtime-name text each branch of lines 146-211 puts in front of the install hint (for cpp/c it is `compiler.upper() ++ " compiler not found. "`). -/
def toolchainMissingText (language : String) : String :=
  if language = "php" then "PHP runtime not found. "
  else if language = "ruby" then "Ruby runtime not found. "
  else if language = "java" then "Java runtime not found. "
  else if language = "go" then "Go runtime not found. "
  else if language = "rust" then "Rust compiler not found. "
  else if language = "cpp" then "G++ compiler not found. "
  else if language = "c" then "GCC compiler not found. "
  else if language = "csharp" then "Dotnet runtime not found. "
  else if language = "python" then "Python 3 not found. "
  else ""

/-- Index of the run subprocess among the subprocess calls of one execution: the languages with a separate compile subprocess (cpp, c, java, rust) run second, everything else runs first. -/
def runCallIndex (language : String) : Nat :=
  if language = "cpp" ∨ language = "c" ∨ language = "java" ∨ language = "rust" then 1 else 0

/-- A concrete oracle for witnesses: every binary resolves under `/usr/bin`, staging succeeds, and every subprocess prints `hi` and exits 0 after one second. -/
def baseEnv : Env :=
  { which := fun c => some ("/usr/bin/" ++ c),
    isExecFile := fun _ => false,
    home := "/root",
    tempDirName := "/tmp/stage",
    mkTempDirExn := none, cleanupExn := none, mkdirExn := none,
    writeExn := fun _ => none,
    run := fun _ => SubOutcome.completes "hi\n" "" 0 1 }

/-- Like `baseEnv`, but removing the temporary directory raises an `OSError`. -/
def cleanupFailEnv : Env :=
  { baseEnv with cleanupExn := some (PyExn.other "cleanup failed") }

/-- Like `baseEnv`, but no binary can be located anywhere. -/
def noToolEnv : Env :=
  { baseEnv with which := fun _ => none }

/-- Like `baseEnv`, but the first subprocess (a compile) succeeds within the ceiling after one second, while the second (the run) would naturally take 11 seconds, past the 10-second ceiling. -/
def runTimeoutEnv : Env :=
  { baseEnv with run := fun i =>
      if i = 0 then SubOutcome.completes "" "" 0 1
      else SubOutcome.completes "" "" 0 11 }

/-- Like `baseEnv`, but the first subprocess (the rustc compile) fails with exit 1 and a stderr mixing a warning line with an error line. -/
def rustWarnEnv : Env :=
  { baseEnv with run := fun i =>
      if i = 0 then SubOutcome.completes "" "warning: unused\nerror: mismatched types" 1 1
      else SubOutcome.completes "" "" 0 1 }

/-- Like `baseEnv`, but every subprocess fails with exit 1 and a compiler diagnostic on stderr. -/
def compileFailEnv : Env :=
  { baseEnv with run := fun _ => SubOutcome.completes "" "main.cpp: syntax error" 1 1 }

/-- Like `baseEnv`, but the first subprocess (a compile) succeeds with a warning on stderr, and the second (the run) prints `ok` and exits 0 after two seconds. -/
def compiledEnv : Env :=
  { baseEnv with run := fun i =>
      if i = 0 then SubOutcome.completes "" "warning: unused variable" 0 1
      else SubOutcome.completes "ok\n" "" 0 2 }

/-- Case analysis on a successful registry lookup: the nine supported languages and their profiles. -/
theorem EXECUTION_CONFIG_cases (l : String) (cfg : LangConfig)
    (h : EXECUTION_CONFIG l = some cfg) :
    (l = "python" ∧ cfg = pythonConfig) ∨ (l = "java" ∧ cfg = javaConfig) ∨
    (l = "ruby" ∧ cfg = rubyConfig) ∨ (l = "php" ∧ cfg = phpConfig) ∨
    (l = "cpp" ∧ cfg = cppConfig) ∨ (l = "c" ∧ cfg = cConfig) ∨
    (l = "csharp" ∧ cfg = csharpConfig) ∨ (l = "go" ∧ cfg = goConfig) ∨
    (l = "rust" ∧ cfg = rustConfig) := by
  unfold EXECUTION_CONFIG at h
  repeat' split at h
  all_goals simp_all

theorem round3_nonneg (q : ℚ) (h : 0 ≤ q) : 0 ≤ round3 q := by
  unfold round3
  apply div_nonneg _ (by norm_num)
  have h2 : (0 : ℤ) ≤ round (q * 1000) := by
    rw [round_eq]
    refine Int.le_floor.mpr ?_
    push_cast
    linarith
  exact_mod_cast h2

theorem runSubExpl_ok_duration (env : Env) (argv : List String) (t : ℚ) (tr : Trace)
    (r : CompletedProcess) (tr' : Trace) (hwf : runsWF env)
    (h : runSubExpl env argv t tr = (Except.ok r, tr')) : 0 ≤ r.duration := by
  simp only [runSubExpl] at h
  split at h
  · simp at h
  · rename_i out err rc dur heq
    split at h
    · simp at h
    · simp only [Prod.mk.injEq] at h
      obtain ⟨h1, -⟩ := h
      injection h1 with h1
      subst h1
      exact hwf _ _ _ _ _ heq

theorem runFinal_time (env : Env) (cfg : LangConfig) (ec : List String) (tr : Trace)
    (r : ExecResult) (tr' : Trace) (hwf : runsWF env)
    (h : runFinal env cfg ec tr = (Except.ok r, tr')) : 0 ≤ r.execution_time := by
  simp only [runFinal] at h
  split at h
  · simp at h
  · rename_i cr tr1 heq
    simp only [Prod.mk.injEq] at h
    obtain ⟨h1, -⟩ := h
    injection h1 with h1
    subst h1
    exact round3_nonneg _ (runSubExpl_ok_duration _ _ _ _ _ _ hwf heq)

theorem prepareAndRun_time (env : Env) (code language : String) (cfg : LangConfig)
    (td fp : String) (tr : Trace) (r : ExecResult) (tr' : Trace) (hwf : runsWF env)
    (h : prepareAndRun env code language cfg td fp tr = (Except.ok r, tr')) :
    0 ≤ r.execution_time := by
  simp only [prepareAndRun] at h
  split at h
  · split at h
    · simp at h
    · split at h
      · simp at h
      · split at h
        · simp at h
        · exact runFinal_time _ _ _ _ _ _ hwf h
  · split at h
    · exact runFinal_time _ _ _ _ _ _ hwf h
    · split at h
      · exact runFinal_time _ _ _ _ _ _ hwf h
      · split at h
        · split at h
          · simp at h
          · split at h
            · simp only [Prod.mk.injEq] at h
              obtain ⟨h1, -⟩ := h
              injection h1 with h1
              subst h1
              exact le_rfl
            · exact runFinal_time _ _ _ _ _ _ hwf h
        · exact runFinal_time _ _ _ _ _ _ hwf h

theorem javaCompileStep_time (env : Env) (code language : String) (cfg : LangConfig)
    (td fp : String) (tr : Trace) (r : ExecResult) (tr' : Trace) (hwf : runsWF env)
    (h : javaCompileStep env code language cfg td fp tr = (Except.ok r, tr')) :
    0 ≤ r.execution_time := by
  simp only [javaCompileStep] at h
  split at h
  · split at h
    · simp at h
    · split at h
      · simp only [Prod.mk.injEq] at h
        obtain ⟨h1, -⟩ := h
        injection h1 with h1
        subst h1
        exact le_rfl
      · exact prepareAndRun_time _ _ _ _ _ _ _ _ _ hwf h
  · exact prepareAndRun_time _ _ _ _ _ _ _ _ _ hwf h

theorem genericCompileStep_time (env : Env) (code language : String) (cfg : LangConfig)
    (td fp : String) (tr : Trace) (r : ExecResult) (tr' : Trace) (hwf : runsWF env)
    (h : genericCompileStep env code language cfg td fp tr = (Except.ok r, tr')) :
    0 ≤ r.execution_time := by
  simp only [genericCompileStep] at h
  split at h
  · split at h
    · split at h
      · simp at h
      · split at h
        · simp only [Prod.mk.injEq] at h
          obtain ⟨h1, -⟩ := h
          injection h1 with h1
          subst h1
          exact le_rfl
        · exact javaCompileStep_time _ _ _ _ _ _ _ _ _ hwf h
    · exact javaCompileStep_time _ _ _ _ _ _ _ _ _ hwf h
  · exact javaCompileStep_time _ _ _ _ _ _ _ _ _ hwf h

theorem execute_body_time (env : Env) (code language : String) (cfg : LangConfig)
    (td : String) (tr : Trace) (r : ExecResult) (tr' : Trace) (hwf : runsWF env)
    (h : execute_body env code language cfg td tr = (Except.ok r, tr')) :
    0 ≤ r.execution_time := by
  simp only [execute_body] at h
  split at h
  · simp at h
  · split at h
    · simp at h
    · exact genericCompileStep_time _ _ _ _ _ _ _ _ _ hwf h

theorem toolchainCheck_time (env : Env) (l : String) (r : ExecResult)
    (h : toolchainCheck env l = some r) : r.execution_time = 0 := by
  unfold toolchainCheck at h
  repeat' split at h
  all_goals first
    | exact Option.noConfusion h
    | (cases h; rfl)
    | (simp only [] at h; split at h <;>
       first | exact Option.noConfusion h | (cases h; rfl))

theorem config_timeout_nonneg (l : String) (cfg : LangConfig)
    (h : EXECUTION_CONFIG l = some cfg) : 0 ≤ cfg.timeout := by
  rcases EXECUTION_CONFIG_cases _ _ h with ⟨-, hc⟩ | ⟨-, hc⟩ | ⟨-, hc⟩ | ⟨-, hc⟩ |
    ⟨-, hc⟩ | ⟨-, hc⟩ | ⟨-, hc⟩ | ⟨-, hc⟩ | ⟨-, hc⟩ <;> subst hc <;>
    norm_num [pythonConfig, javaConfig, rubyConfig, phpConfig, cppConfig, cConfig,
      csharpConfig, goConfig, rustConfig]

theorem handle_exn_time (l : String) (t : ℚ) (ht : 0 ≤ t) (e : PyExn) :
    0 ≤ (handle_exn l t e).execution_time := by
  unfold handle_exn
  split
  · simpa using ht
  · split <;> simp
  · split <;> simp

/-- A nonempty filtered line list re-joins to a nonempty string, because every surviving line has a non-whitespace character. -/
theorem keptLines_intercalate_ne_empty (s : String) (h : keptLines s ≠ []) :
    String.intercalate "\n" (keptLines s) ≠ "" := by
  rcases hk : keptLines s with _ | ⟨l, ls⟩
  · exact absurd hk h
  · have hmem : l ∈ keptLines s := by rw [hk]; exact List.mem_cons_self _ _
    have hpred := List.of_mem_filter hmem
    have hlne : l ≠ "" := by
      intro he
      rw [he] at hpred
      exact absurd hpred (by decide)
    have hlen : l.length ≤ (String.intercalate "\n" (l :: ls)).length := by
      show l.length ≤ (String.intercalate.go l "\n" ls).length
      clear hk hmem hpred hlne h
      induction ls generalizing l with
      | nil => exact le_rfl
      | cons a as ih =>
        calc l.length ≤ (l ++ "\n" ++ a).length := by
              have h1 : (l ++ "\n" ++ a).length = l.length + "\n".length + a.length := by
                simp [String.length_append]
              omega
          _ ≤ _ := ih _
    intro he
    rw [he] at hlen
    have hd : l.data ≠ [] := fun hdata => hlne (String.ext (show l.data = "".data from hdata))
    have hlen2 : l.data.length ≤ 0 := hlen
    exact hd (List.eq_nil_of_length_eq_zero (Nat.le_zero.mp hlen2))

/-- The reported Rust compile error as a function of the kept stderr lines: the re-joined kept lines, or the generic text when no line survives the filter. -/
theorem pyOr_filterRustStderr (s : String) :
    pyOr (filterRustStderr s) "Compilation failed" =
      if keptLines s = [] then "Compilation failed"
      else String.intercalate "\n" (keptLines s) := by
  simp only [filterRustStderr, pyOr]
  by_cases hs : s = ""
  · subst hs
    decide
  · rw [if_pos hs]
    by_cases hk : keptLines s = []
    · rw [if_neg (not_not_intro hk), if_pos rfl, if_pos hk]
    · rw [if_pos hk, if_neg (keptLines_intercalate_ne_empty s hk), if_neg hk]

theorem runSubExpl_filesWritten (env : Env) (argv : List String) (t : ℚ) (tr : Trace) :
    ((runSubExpl env argv t tr).2).filesWritten = tr.filesWritten := by
  simp only [runSubExpl]
  split
  · rfl
  · split <;> rfl

theorem runFinal_filesWritten (env : Env) (cfg : LangConfig) (ec : List String) (tr : Trace) :
    ((runFinal env cfg ec tr).2).filesWritten = tr.filesWritten := by
  simp only [runFinal]
  rcases hrs : runSubExpl env (resolveExecHead env ec) cfg.timeout tr with ⟨res, tr1⟩
  have h1 : tr1.filesWritten = tr.filesWritten := by
    have h2 := runSubExpl_filesWritten env (resolveExecHead env ec) cfg.timeout tr
    rw [hrs] at h2
    exact h2
  cases res <;> simpa using h1

theorem prepareAndRun_filesWritten_java (env : Env) (code : String) (cfg : LangConfig)
    (td fp : String) (tr : Trace) :
    ((prepareAndRun env code "java" cfg td fp tr).2).filesWritten = tr.filesWritten := by
  simp only [prepareAndRun, ite_true, ite_false, if_true, if_false, false_and, and_false]
  exact runFinal_filesWritten _ _ _ _

theorem javaCompileStep_filesWritten_java (env : Env) (code : String) (cfg : LangConfig)
    (td fp : String) (tr : Trace) :
    ((javaCompileStep env code "java" cfg td fp tr).2).filesWritten = tr.filesWritten := by
  simp only [javaCompileStep, ite_true, ite_false, if_true, if_false]
  rcases hrs : runSubExpl env [get_command_path env "javac", fp] cfg.timeout tr with ⟨res, tr1⟩
  have h1 : tr1.filesWritten = tr.filesWritten := by
    have h2 := runSubExpl_filesWritten env [get_command_path env "javac", fp] cfg.timeout tr
    rw [hrs] at h2
    exact h2
  cases res with
  | error e => simpa using h1
  | ok cr =>
    show ((if cr.returncode ≠ 0 then _
        else prepareAndRun env code "java" cfg td fp tr1).2).filesWritten = _
    split
    · simpa using h1
    · rw [prepareAndRun_filesWritten_java]
      exact h1

theorem genericCompileStep_filesWritten_java (env : Env) (code : String) (cfg : LangConfig)
    (td fp : String) (tr : Trace) :
    ((genericCompileStep env code "java" cfg td fp tr).2).filesWritten = tr.filesWritten := by
  simp only [genericCompileStep]
  rcases hcc : cfg.compile_command with _ | cc
  · exact javaCompileStep_filesWritten_java _ _ _ _ _ _
  · simp only [ite_true, ite_false, if_true, if_false, not_true, not_false_iff]
    exact javaCompileStep_filesWritten_java _ _ _ _ _ _

/-- The staging-name scan as a `find?`: the first line containing the declaration keyword decides the outcome. -/
theorem extract_class_name_go_characterization (ls : List String) :
    extract_class_name_go ls =
      (match ls.find? (fun line => containsSub line "public class") with
      | none => Except.ok "Main"
      | some line =>
        match pySplitWS ((pySplitOn line "public class").getD 1 "") with
        | [] => Except.error (PyExn.other "list index out of range")
        | tok :: _ => Except.ok (pyStrip tok)) := by
  induction ls with
  | nil => rfl
  | cons line rest ih =>
    cases hc : containsSub line "public class" with
    | false =>
      simp only [extract_class_name_go, List.find?, hc]
      simpa using ih
    | true =>
      have hlen : (pySplitOn line "public class").length > 1 := by
        simpa [containsSub] using hc
      simp only [extract_class_name_go, List.find?, hc, if_pos hlen]
      simp [hlen]

/-- C1, counterexample: the claim says every unexpected exception during staging, subprocess invocation, or cleanup is converted into an exit-code-1 result, but the `try/except` sits inside the `with tempfile.TemporaryDirectory()` scope, so an exception raised by the cleanup itself (here, while removing the directory after a successful python run) propagates to the caller. -/
theorem execute_code_cleanup_exception_propagates :
    (execute_code cleanupFailEnv "print(1)" "python").1 =
      Except.error (PyExn.other "cleanup failed") := rfl

/-- C1, amended: provided creating and removing the temporary directory themselves succeed, `execute_code` always returns a fully-populated result with nonnegative execution time and never propagates an exception - every exception raised inside the `try` body (staging writes, class-name extraction, subprocess invocation) is converted; and `handle_exn` turns any unexpected exception into an exit-code-1 result. -/
theorem execute_code_never_raises_within_staging :
    (∀ (env : Env) (code language : String),
      env.mkTempDirExn = none → env.cleanupExn = none → runsWF env →
      ∃ r, (execute_code env code language).1 = Except.ok r ∧ 0 ≤ r.execution_time)
    ∧ (∀ (language : String) (timeout : Nat) (msg : String),
      (handle_exn language timeout (PyExn.other msg)).exit_code = 1) := by
  constructor
  · intro env code language hmk hcl hwf
    rcases hc : EXECUTION_CONFIG (pyLower language) with _ | cfg
    · refine ⟨⟨"", some ("Language " ++ pyLower language ++ " is not supported for execution."),
        1, 0⟩, ?_, le_rfl⟩
      simp [execute_code, hc]
    · rcases htc : toolchainCheck env (pyLower language) with _ | r0
      · rcases hb : execute_body env code (pyLower language) cfg env.tempDirName
            { tempDirCreated := true, tempDirRemoved := false, filesWritten := [], calls := [] }
          with ⟨res, trb⟩
        cases res with
        | ok r =>
          refine ⟨r, ?_, execute_body_time _ _ _ _ _ _ _ _ hwf hb⟩
          simp [execute_code, hc, htc, hmk, hcl, hb]
        | error e =>
          refine ⟨handle_exn (pyLower language) cfg.timeout e, ?_,
            handle_exn_time _ _ (config_timeout_nonneg _ _ hc) _⟩
          simp [execute_code, hc, htc, hmk, hcl, hb]
      · refine ⟨r0, ?_, ?_⟩
        · simp [execute_code, hc, htc]
        · rw [toolchainCheck_time env (pyLower language) r0 htc]
  · intro language timeout msg
    simp only [handle_exn]
    split <;> rfl

/-- C1, witness: the amended theorem applied at a concrete environment. -/
theorem execute_code_never_raises_within_staging_witness :
    ∃ r, (execute_code baseEnv "print(1)" "python").1 = Except.ok r ∧
      0 ≤ r.execution_time :=
  execute_code_never_raises_within_staging.1 baseEnv "print(1)" "python" rfl rfl
    (fun i out err rc dur h => by cases h; norm_num)

/-- C2: whenever `execute_code` returns (rather than raises) and a staging temporary directory was created for the call, that directory has been removed again - the `with` scope removes it on every exit path of the body: success, compile failure, runtime failure, timeout, and caught unexpected exceptions. -/
theorem staging_dir_removed_whenever_execute_code_returns
    (env : Env) (code language : String)
    (hret : ∃ r, (execute_code env code language).1 = Except.ok r)
    (hcre : (execute_code env code language).2.tempDirCreated = true) :
    (execute_code env code language).2.tempDirRemoved = true := by
  obtain ⟨r, hr⟩ := hret
  rcases hc : EXECUTION_CONFIG (pyLower language) with _ | cfg
  · simp [execute_code, hc] at hcre
  · rcases htc : toolchainCheck env (pyLower language) with _ | r0
    · rcases hmk : env.mkTempDirExn with _ | e
      · rcases hcl : env.cleanupExn with _ | e
        · simp [execute_code, hc, htc, hmk, hcl]
        · simp [execute_code, hc, htc, hmk, hcl] at hr
      · simp [execute_code, hc, htc, hmk] at hcre
    · simp [execute_code, hc, htc] at hcre

/-- C2, witness: the theorem applied at a concrete environment where the directory is created. -/
theorem staging_dir_removed_whenever_execute_code_returns_witness :
    (execute_code baseEnv "print(1)" "python").2.tempDirRemoved = true :=
  staging_dir_removed_whenever_execute_code_returns baseEnv "print(1)" "python"
    ⟨⟨"hi\n", none, 0, round3 1⟩, rfl⟩ rfl

/-- C3: for every supported language, whenever a subprocess launched for the request naturally exceeds the language ceiling - the first subprocess (the compile step for cpp/c/java/rust, the run otherwise), or, for a compiled language whose compile finishes within the ceiling with exit code 0, the run subprocess - the result is exit code 124, error `Execution timed out after <timeout> seconds.`, empty output, and execution time equal to the configured timeout, not the program natural duration `dur`. -/
theorem execute_code_timeout_result (env : Env) (code language : String) (cfg : LangConfig)
    (hcfg : EXECUTION_CONFIG (pyLower language) = some cfg)
    (htc : toolchainCheck env (pyLower language) = none)
    (hmk : env.mkTempDirExn = none) (hcl : env.cleanupExn = none)
    (hmd : env.mkdirExn = none) (hw : ∀ p, env.writeExn p = none)
    (hjava : pyLower language = "java" → ∃ cn, extract_class_name code = Except.ok cn)
    (htimeout :
      (∃ out err rc dur, env.run 0 = SubOutcome.completes out err rc dur ∧ cfg.timeout < dur) ∨
      ((pyLower language = "cpp" ∨ pyLower language = "c" ∨
          pyLower language = "java" ∨ pyLower language = "rust") ∧
        (∃ cout cerr cdur,
          env.run 0 = SubOutcome.completes cout cerr 0 cdur ∧ cdur ≤ cfg.timeout) ∧
        (∃ out err rc dur,
          env.run 1 = SubOutcome.completes out err rc dur ∧ cfg.timeout < dur))) :
    (execute_code env code language).1 =
      Except.ok ⟨"", some ("Execution timed out after " ++ toString cfg.timeout ++ " seconds."),
        124, cfg.timeout⟩ := by
  rcases EXECUTION_CONFIG_cases _ _ hcfg with ⟨hl, hc⟩ | ⟨hl, hc⟩ | ⟨hl, hc⟩ | ⟨hl, hc⟩ |
    ⟨hl, hc⟩ | ⟨hl, hc⟩ | ⟨hl, hc⟩ | ⟨hl, hc⟩ | ⟨hl, hc⟩ <;> subst hc <;> rw [hl] at htc
  · rcases htimeout with ⟨out, err, rc, dur, hr0, hgt⟩ | ⟨hmem, -, -⟩
    · have hgt2 : (10 : ℚ) < dur := hgt
      simp +decide [execute_code, hl, EXECUTION_CONFIG, htc, hmk, hcl, execute_body,
        writeFileExpl, hw, genericCompileStep, javaCompileStep, prepareAndRun, pythonConfig,
        runFinal, resolveExecHead, runSubExpl, hr0, hgt2, handle_exn]
    · rw [hl] at hmem
      exact absurd hmem (by decide)
  · obtain ⟨cn, hcn⟩ := hjava hl
    rcases htimeout with ⟨out, err, rc, dur, hr0, hgt⟩ |
      ⟨-, ⟨cout, cerr, cdur, hc0, hcd⟩, ⟨out, err, rc, dur, hr1, hgt⟩⟩
    · have hgt2 : (10 : ℚ) < dur := hgt
      simp +decide [execute_code, hl, EXECUTION_CONFIG, htc, hmk, hcl, execute_body, hcn,
        writeFileExpl, hw, genericCompileStep, javaCompileStep, prepareAndRun, javaConfig,
        runFinal, resolveExecHead, runSubExpl, hr0, hgt2, handle_exn]
    · have hcd2 : ¬((10 : ℚ) < cdur) := not_lt.mpr hcd
      have hgt2 : (10 : ℚ) < dur := hgt
      simp +decide [execute_code, hl, EXECUTION_CONFIG, htc, hmk, hcl, execute_body, hcn,
        writeFileExpl, hw, genericCompileStep, javaCompileStep, prepareAndRun, javaConfig,
        runFinal, resolveExecHead, runSubExpl, hc0, hcd2, hr1, hgt2, handle_exn]
  · rcases htimeout with ⟨out, err, rc, dur, hr0, hgt⟩ | ⟨hmem, -, -⟩
    · have hgt2 : (10 : ℚ) < dur := hgt
      simp +decide [execute_code, hl, EXECUTION_CONFIG, htc, hmk, hcl, execute_body,
        writeFileExpl, hw, genericCompileStep, javaCompileStep, prepareAndRun, rubyConfig,
        runFinal, resolveExecHead, runSubExpl, hr0, hgt2, handle_exn]
    · rw [hl] at hmem
      exact absurd hmem (by decide)
  · rcases htimeout with ⟨out, err, rc, dur, hr0, hgt⟩ | ⟨hmem, -, -⟩
    · have hgt2 : (10 : ℚ) < dur := hgt
      simp +decide [execute_code, hl, EXECUTION_CONFIG, htc, hmk, hcl, execute_body,
        writeFileExpl, hw, genericCompileStep, javaCompileStep, prepareAndRun, phpConfig,
        runFinal, resolveExecHead, runSubExpl, hr0, hgt2, handle_exn]
    · rw [hl] at hmem
      exact absurd hmem (by decide)
  · rcases htimeout with ⟨out, err, rc, dur, hr0, hgt⟩ |
      ⟨-, ⟨cout, cerr, cdur, hc0, hcd⟩, ⟨out, err, rc, dur, hr1, hgt⟩⟩
    · have hgt2 : (10 : ℚ) < dur := hgt
      simp +decide [execute_code, hl, EXECUTION_CONFIG, htc, hmk, hcl, execute_body,
        writeFileExpl, hw, genericCompileStep, javaCompileStep, prepareAndRun, cppConfig,
        formatFileExec, runFinal, resolveExecHead, runSubExpl, hr0, hgt2, handle_exn]
    · have hcd2 : ¬((10 : ℚ) < cdur) := not_lt.mpr hcd
      have hgt2 : (10 : ℚ) < dur := hgt
      simp +decide [execute_code, hl, EXECUTION_CONFIG, htc, hmk, hcl, execute_body,
        writeFileExpl, hw, genericCompileStep, javaCompileStep, prepareAndRun, cppConfig,
        formatFileExec, runFinal, resolveExecHead, runSubExpl, hc0, hcd2, hr1, hgt2, handle_exn]
  · rcases htimeout with ⟨out, err, rc, dur, hr0, hgt⟩ |
      ⟨-, ⟨cout, cerr, cdur, hc0, hcd⟩, ⟨out, err, rc, dur, hr1, hgt⟩⟩
    · have hgt2 : (10 : ℚ) < dur := hgt
      simp +decide [execute_code, hl, EXECUTION_CONFIG, htc, hmk, hcl, execute_body,
        writeFileExpl, hw, genericCompileStep, javaCompileStep, prepareAndRun, cConfig,
        formatFileExec, runFinal, resolveExecHead, runSubExpl, hr0, hgt2, handle_exn]
    · have hcd2 : ¬((10 : ℚ) < cdur) := not_lt.mpr hcd
      have hgt2 : (10 : ℚ) < dur := hgt
      simp +decide [execute_code, hl, EXECUTION_CONFIG, htc, hmk, hcl, execute_body,
        writeFileExpl, hw, genericCompileStep, javaCompileStep, prepareAndRun, cConfig,
        formatFileExec, runFinal, resolveExecHead, runSubExpl, hc0, hcd2, hr1, hgt2, handle_exn]
  · rcases htimeout with ⟨out, err, rc, dur, hr0, hgt⟩ | ⟨hmem, -, -⟩
    · have hgt2 : (10 : ℚ) < dur := hgt
      simp +decide [execute_code, hl, EXECUTION_CONFIG, htc, hmk, hcl, hmd, execute_body,
        writeFileExpl, mkdirExpl, hw, genericCompileStep, javaCompileStep, prepareAndRun,
        csharpConfig, runFinal, resolveExecHead, runSubExpl, hr0, hgt2, handle_exn]
    · rw [hl] at hmem
      exact absurd hmem (by decide)
  · rcases htimeout with ⟨out, err, rc, dur, hr0, hgt⟩ | ⟨hmem, -, -⟩
    · have hgt2 : (10 : ℚ) < dur := hgt
      simp +decide [execute_code, hl, EXECUTION_CONFIG, htc, hmk, hcl, execute_body,
        writeFileExpl, hw, genericCompileStep, javaCompileStep, prepareAndRun, goConfig,
        runFinal, resolveExecHead, runSubExpl, hr0, hgt2, handle_exn]
    · rw [hl] at hmem
      exact absurd hmem (by decide)
  · rcases htimeout with ⟨out, err, rc, dur, hr0, hgt⟩ |
      ⟨-, ⟨cout, cerr, cdur, hc0, hcd⟩, ⟨out, err, rc, dur, hr1, hgt⟩⟩
    · have hgt2 : (15 : ℚ) < dur := hgt
      simp +decide [execute_code, hl, EXECUTION_CONFIG, htc, hmk, hcl, execute_body,
        writeFileExpl, hw, genericCompileStep, javaCompileStep, prepareAndRun, rustConfig,
        runFinal, resolveExecHead, runSubExpl, hr0, hgt2, handle_exn]
    · have hcd2 : ¬((15 : ℚ) < cdur) := not_lt.mpr hcd
      have hgt2 : (15 : ℚ) < dur := hgt
      simp +decide [execute_code, hl, EXECUTION_CONFIG, htc, hmk, hcl, execute_body,
        writeFileExpl, hw, genericCompileStep, javaCompileStep, prepareAndRun, rustConfig,
        runFinal, resolveExecHead, runSubExpl, hc0, hcd2, hr1, hgt2, handle_exn]

/-- C3, witness: a cpp request whose compile finishes within the ceiling with exit code 0 and whose run subprocess would naturally take 11 seconds against the 10-second ceiling. -/
theorem execute_code_timeout_result_witness :
    (execute_code runTimeoutEnv "int main()" "cpp").1 =
      Except.ok ⟨"", some ("Execution timed out after " ++ toString cppConfig.timeout ++
        " seconds."), 124, cppConfig.timeout⟩ :=
  execute_code_timeout_result runTimeoutEnv "int main()" "cpp" cppConfig rfl rfl rfl rfl rfl
    (fun _ => rfl) (fun h => absurd h (by decide))
    (Or.inr ⟨Or.inl rfl, ⟨"", "", 1, rfl, by norm_num [cppConfig]⟩,
      ⟨"", "", 0, 11, rfl, by norm_num [cppConfig]⟩⟩)

/-- C4: for every request whose run subprocess completes within the timeout, the result is exactly stdout as `output`, stderr as `error` iff the exit code is nonzero (else null), the subprocess exit code, and the wall-clock duration of the run call only - the compile call duration `cdur` and its outcome do not enter - rounded to millisecond precision by `round3`. -/
theorem execute_code_run_completion_result (env : Env) (code language : String)
    (cfg : LangConfig) (out err : String) (rc : Int) (dur : ℚ)
    (hcfg : EXECUTION_CONFIG (pyLower language) = some cfg)
    (htc : toolchainCheck env (pyLower language) = none)
    (hmk : env.mkTempDirExn = none) (hcl : env.cleanupExn = none)
    (hmd : env.mkdirExn = none) (hw : ∀ p, env.writeExn p = none)
    (hjava : pyLower language = "java" → ∃ cn, extract_class_name code = Except.ok cn)
    (hcompile : (pyLower language = "cpp" ∨ pyLower language = "c" ∨
        pyLower language = "java" ∨ pyLower language = "rust") →
      ∃ cout cerr cdur, env.run 0 = SubOutcome.completes cout cerr 0 cdur ∧ cdur ≤ cfg.timeout)
    (hrun : env.run (runCallIndex (pyLower language)) = SubOutcome.completes out err rc dur)
    (hdur : dur ≤ cfg.timeout) :
    (execute_code env code language).1 =
      Except.ok ⟨out, if rc = 0 then none else some err, rc, round3 dur⟩ := by
  rcases EXECUTION_CONFIG_cases _ _ hcfg with ⟨hl, hc⟩ | ⟨hl, hc⟩ | ⟨hl, hc⟩ | ⟨hl, hc⟩ |
    ⟨hl, hc⟩ | ⟨hl, hc⟩ | ⟨hl, hc⟩ | ⟨hl, hc⟩ | ⟨hl, hc⟩ <;> subst hc <;> rw [hl] at hrun htc
  · have hd2 : ¬((10 : ℚ) < dur) := not_lt.mpr hdur
    have hrun0 : env.run 0 = SubOutcome.completes out err rc dur := hrun
    simp +decide [execute_code, hl, EXECUTION_CONFIG, htc, hmk, hcl, execute_body, writeFileExpl,
      hw, genericCompileStep, javaCompileStep, prepareAndRun, pythonConfig, runFinal,
      resolveExecHead, runSubExpl, hrun0, hd2]
  · obtain ⟨cn, hcn⟩ := hjava hl
    obtain ⟨cout, cerr, cdur, hc0, hcd⟩ := hcompile (Or.inr (Or.inr (Or.inl hl)))
    have hcd2 : ¬((10 : ℚ) < cdur) := not_lt.mpr hcd
    have hd2 : ¬((10 : ℚ) < dur) := not_lt.mpr hdur
    have hrun1 : env.run 1 = SubOutcome.completes out err rc dur := hrun
    simp +decide [execute_code, hl, EXECUTION_CONFIG, htc, hmk, hcl, execute_body, hcn,
      writeFileExpl, hw, genericCompileStep, javaCompileStep, prepareAndRun, javaConfig,
      runFinal, resolveExecHead, runSubExpl, hc0, hcd2, hrun1, hd2]
  · have hd2 : ¬((10 : ℚ) < dur) := not_lt.mpr hdur
    have hrun0 : env.run 0 = SubOutcome.completes out err rc dur := hrun
    simp +decide [execute_code, hl, EXECUTION_CONFIG, htc, hmk, hcl, execute_body, writeFileExpl,
      hw, genericCompileStep, javaCompileStep, prepareAndRun, rubyConfig, runFinal,
      resolveExecHead, runSubExpl, hrun0, hd2]
  · have hd2 : ¬((10 : ℚ) < dur) := not_lt.mpr hdur
    have hrun0 : env.run 0 = SubOutcome.completes out err rc dur := hrun
    simp +decide [execute_code, hl, EXECUTION_CONFIG, htc, hmk, hcl, execute_body, writeFileExpl,
      hw, genericCompileStep, javaCompileStep, prepareAndRun, phpConfig, runFinal,
      resolveExecHead, runSubExpl, hrun0, hd2]
  · obtain ⟨cout, cerr, cdur, hc0, hcd⟩ := hcompile (Or.inl hl)
    have hcd2 : ¬((10 : ℚ) < cdur) := not_lt.mpr hcd
    have hd2 : ¬((10 : ℚ) < dur) := not_lt.mpr hdur
    have hrun1 : env.run 1 = SubOutcome.completes out err rc dur := hrun
    simp +decide [execute_code, hl, EXECUTION_CONFIG, htc, hmk, hcl, execute_body, writeFileExpl,
      hw, genericCompileStep, javaCompileStep, prepareAndRun, cppConfig, formatFileExec,
      runFinal, resolveExecHead, runSubExpl, hc0, hcd2, hrun1, hd2]
  · obtain ⟨cout, cerr, cdur, hc0, hcd⟩ := hcompile (Or.inr (Or.inl hl))
    have hcd2 : ¬((10 : ℚ) < cdur) := not_lt.mpr hcd
    have hd2 : ¬((10 : ℚ) < dur) := not_lt.mpr hdur
    have hrun1 : env.run 1 = SubOutcome.completes out err rc dur := hrun
    simp +decide [execute_code, hl, EXECUTION_CONFIG, htc, hmk, hcl, execute_body, writeFileExpl,
      hw, genericCompileStep, javaCompileStep, prepareAndRun, cConfig, formatFileExec,
      runFinal, resolveExecHead, runSubExpl, hc0, hcd2, hrun1, hd2]
  · have hd2 : ¬((10 : ℚ) < dur) := not_lt.mpr hdur
    have hrun0 : env.run 0 = SubOutcome.completes out err rc dur := hrun
    simp +decide [execute_code, hl, EXECUTION_CONFIG, htc, hmk, hcl, hmd, execute_body,
      writeFileExpl, mkdirExpl, hw, genericCompileStep, javaCompileStep, prepareAndRun,
      csharpConfig, runFinal, resolveExecHead, runSubExpl, hrun0, hd2]
  · have hd2 : ¬((10 : ℚ) < dur) := not_lt.mpr hdur
    have hrun0 : env.run 0 = SubOutcome.completes out err rc dur := hrun
    simp +decide [execute_code, hl, EXECUTION_CONFIG, htc, hmk, hcl, execute_body, writeFileExpl,
      hw, genericCompileStep, javaCompileStep, prepareAndRun, goConfig, runFinal,
      resolveExecHead, runSubExpl, hrun0, hd2]
  · obtain ⟨cout, cerr, cdur, hc0, hcd⟩ := hcompile (Or.inr (Or.inr (Or.inr hl)))
    have hcd2 : ¬((15 : ℚ) < cdur) := not_lt.mpr hcd
    have hd2 : ¬((15 : ℚ) < dur) := not_lt.mpr hdur
    have hrun1 : env.run 1 = SubOutcome.completes out err rc dur := hrun
    simp +decide [execute_code, hl, EXECUTION_CONFIG, htc, hmk, hcl, execute_body, writeFileExpl,
      hw, genericCompileStep, javaCompileStep, prepareAndRun, rustConfig, runFinal,
      resolveExecHead, runSubExpl, hc0, hcd2, hrun1, hd2]

/-- C4, witness: a cpp compile-then-run whose run prints `ok` in two seconds. -/
theorem execute_code_run_completion_result_witness :
    (execute_code compiledEnv "int main()" "cpp").1 =
      Except.ok ⟨"ok\n", if (0 : Int) = 0 then none else some "", 0, round3 2⟩ :=
  execute_code_run_completion_result compiledEnv "int main()" "cpp" cppConfig "ok\n" "" 0 2
    rfl rfl rfl rfl rfl (fun _ => rfl) (fun h => absurd h (by decide))
    (fun h => ⟨"", "warning: unused variable", 1, rfl, by norm_num [cppConfig]⟩)
    rfl (by norm_num [cppConfig])

/-- C5, counterexample: for the compiled language Rust, a failed compile reports the FILTERED stderr, not the compiler stderr verbatim - with stderr `warning: unused\nerror: mismatched types` the result error is `error: mismatched types`, so the claim `error equal to the compiler stderr` fails as stated. -/
theorem execute_code_rust_compile_error_uses_filtered_stderr :
    (execute_code rustWarnEnv "fn main()" "rust").1 =
      Except.ok ⟨"", some "error: mismatched types", 1, 0⟩ ∧
    (execute_code rustWarnEnv "fn main()" "rust").1 ≠
      Except.ok ⟨"", some "warning: unused\nerror: mismatched types", 1, 0⟩ := by
  constructor
  · rfl
  · intro h
    have h1 : (execute_code rustWarnEnv "fn main()" "rust").1 =
        Except.ok ⟨"", some "error: mismatched types", 1, 0⟩ := rfl
    rw [h1] at h
    simp [ExecResult.mk.injEq] at h

/-- C5, amended: for every compiled-language request (cpp, c, java, rust) whose compile subprocess exits nonzero, `execute_code` returns immediately with the compiler exit code, empty output, zero execution time, and error equal to the compiler stderr - for Rust the stderr after info/warning/blank-line filtering - or the generic `Compilation failed` when that (possibly filtered) stderr is empty; exactly one subprocess was launched, so the run step is never attempted. -/
theorem execute_code_compile_failure_result (env : Env) (code language : String)
    (cfg : LangConfig) (cout cerr : String) (rcC : Int) (cdur : ℚ)
    (hcomp : pyLower language = "cpp" ∨ pyLower language = "c" ∨
      pyLower language = "java" ∨ pyLower language = "rust")
    (hcfg : EXECUTION_CONFIG (pyLower language) = some cfg)
    (htc : toolchainCheck env (pyLower language) = none)
    (hmk : env.mkTempDirExn = none) (hcl : env.cleanupExn = none)
    (hw : ∀ p, env.writeExn p = none)
    (hjava : pyLower language = "java" → ∃ cn, extract_class_name code = Except.ok cn)
    (hc0 : env.run 0 = SubOutcome.completes cout cerr rcC cdur) (hcd : cdur ≤ cfg.timeout)
    (hrc : rcC ≠ 0) :
    (execute_code env code language).1 =
      Except.ok ⟨"", some (pyOr (if pyLower language = "rust" then filterRustStderr cerr
        else cerr) "Compilation failed"), rcC, 0⟩ ∧
    (execute_code env code language).2.calls.length = 1 := by
  rcases hcomp with hl | hl | hl | hl
  · rw [hl] at htc hcfg ⊢
    rw [show EXECUTION_CONFIG "cpp" = some cppConfig from rfl] at hcfg
    injection hcfg with hcfg
    subst hcfg
    have hcd2 : ¬((10 : ℚ) < cdur) := not_lt.mpr hcd
    constructor <;>
      simp +decide [execute_code, hl, EXECUTION_CONFIG, htc, hmk, hcl, execute_body,
        writeFileExpl, hw, genericCompileStep, javaCompileStep, prepareAndRun, cppConfig,
        formatFileExec, runFinal, resolveExecHead, runSubExpl, hc0, hcd2, hrc]
  · rw [hl] at htc hcfg ⊢
    rw [show EXECUTION_CONFIG "c" = some cConfig from rfl] at hcfg
    injection hcfg with hcfg
    subst hcfg
    have hcd2 : ¬((10 : ℚ) < cdur) := not_lt.mpr hcd
    constructor <;>
      simp +decide [execute_code, hl, EXECUTION_CONFIG, htc, hmk, hcl, execute_body,
        writeFileExpl, hw, genericCompileStep, javaCompileStep, prepareAndRun, cConfig,
        formatFileExec, runFinal, resolveExecHead, runSubExpl, hc0, hcd2, hrc]
  · obtain ⟨cn, hcn⟩ := hjava hl
    rw [hl] at htc hcfg ⊢
    rw [show EXECUTION_CONFIG "java" = some javaConfig from rfl] at hcfg
    injection hcfg with hcfg
    subst hcfg
    have hcd2 : ¬((10 : ℚ) < cdur) := not_lt.mpr hcd
    constructor <;>
      simp +decide [execute_code, hl, EXECUTION_CONFIG, htc, hmk, hcl, execute_body, hcn,
        writeFileExpl, hw, genericCompileStep, javaCompileStep, prepareAndRun, javaConfig,
        runFinal, resolveExecHead, runSubExpl, hc0, hcd2, hrc]
  · rw [hl] at htc hcfg ⊢
    rw [show EXECUTION_CONFIG "rust" = some rustConfig from rfl] at hcfg
    injection hcfg with hcfg
    subst hcfg
    have hcd2 : ¬((15 : ℚ) < cdur) := not_lt.mpr hcd
    constructor <;>
      simp +decide [execute_code, hl, EXECUTION_CONFIG, htc, hmk, hcl, execute_body,
        writeFileExpl, hw, genericCompileStep, javaCompileStep, prepareAndRun, rustConfig,
        runFinal, resolveExecHead, runSubExpl, hc0, hcd2, hrc]

/-- C5, witness: a cpp compile failing with a diagnostic on stderr. -/
theorem execute_code_compile_failure_result_witness :
    (execute_code compileFailEnv "int main()" "cpp").1 =
      Except.ok ⟨"", some (pyOr (if pyLower "cpp" = "rust"
        then filterRustStderr "main.cpp: syntax error"
        else "main.cpp: syntax error") "Compilation failed"), 1, 0⟩ ∧
    (execute_code compileFailEnv "int main()" "cpp").2.calls.length = 1 :=
  execute_code_compile_failure_result compileFailEnv "int main()" "cpp" cppConfig
    "" "main.cpp: syntax error" 1 1 (Or.inl rfl) rfl rfl rfl rfl (fun _ => rfl)
    (fun h => absurd h (by decide)) rfl (by norm_num [cppConfig]) (by norm_num)

/-- C6: for every language string whose lowercase form is not a registry key, the result is exit code 1, error `Language <x> is not supported for execution.` with the lowercased name, empty output, zero execution time - and the trace is empty: no staging directory, no file, no subprocess. -/
theorem execute_code_unsupported_language (env : Env) (code language : String)
    (h : EXECUTION_CONFIG (pyLower language) = none) :
    execute_code env code language =
      (Except.ok ⟨"", some ("Language " ++ pyLower language ++ " is not supported for execution."),
        1, 0⟩, ⟨false, false, [], []⟩) := by
  simp [execute_code, h]

/-- C6, witness: the theorem applied at the unsupported language `cobol`. -/
theorem execute_code_unsupported_language_witness :
    execute_code baseEnv "print(1)" "cobol" =
      (Except.ok ⟨"", some ("Language " ++ pyLower "cobol" ++
        " is not supported for execution."), 1, 0⟩, ⟨false, false, [], []⟩) :=
  execute_code_unsupported_language baseEnv "print(1)" "cobol" rfl

/-- C7: for every supported language, when any binary the protocol requires cannot be located via the search path or the fixed fallback locations, `execute_code` returns immediately with exit code 1 and an error combining the capitalized runtime name with the language install hint, and the trace is empty: no staging directory is created on this path. -/
theorem execute_code_toolchain_missing (env : Env) (code language : String) (cfg : LangConfig)
    (hcfg : EXECUTION_CONFIG (pyLower language) = some cfg)
    (hmiss : ∃ b ∈ requiredCmds (pyLower language), check_command_exists env b = false) :
    execute_code env code language =
      (Except.ok ⟨"", some (toolchainMissingText (pyLower language) ++
          ((LANGUAGE_INSTALL_MESSAGES (pyLower language)).getD "")), 1, 0⟩,
        ⟨false, false, [], []⟩) := by
  obtain ⟨b, hbmem, hb⟩ := hmiss
  rcases EXECUTION_CONFIG_cases _ _ hcfg with ⟨hl, -⟩ | ⟨hl, -⟩ | ⟨hl, -⟩ | ⟨hl, -⟩ |
    ⟨hl, -⟩ | ⟨hl, -⟩ | ⟨hl, -⟩ | ⟨hl, -⟩ | ⟨hl, -⟩ <;>
    rw [hl] at hbmem ⊢ <;> simp [requiredCmds] at hbmem
  · rw [hbmem] at hb
    simp [execute_code, hl, EXECUTION_CONFIG, toolchainCheck, hb, toolchainMissingText,
      LANGUAGE_INSTALL_MESSAGES]
  · rcases hbmem with hbeq | hbeq <;> rw [hbeq] at hb <;>
      simp [execute_code, hl, EXECUTION_CONFIG, toolchainCheck, hb, toolchainMissingText,
        LANGUAGE_INSTALL_MESSAGES]
  · rw [hbmem] at hb
    simp [execute_code, hl, EXECUTION_CONFIG, toolchainCheck, hb, toolchainMissingText,
      LANGUAGE_INSTALL_MESSAGES]
  · rw [hbmem] at hb
    simp [execute_code, hl, EXECUTION_CONFIG, toolchainCheck, hb, toolchainMissingText,
      LANGUAGE_INSTALL_MESSAGES]
  · rw [hbmem] at hb
    simp [execute_code, hl, EXECUTION_CONFIG, toolchainCheck, hb, toolchainMissingText,
      LANGUAGE_INSTALL_MESSAGES, (by decide : pyUpper "g++" = "G++")]
  · rw [hbmem] at hb
    simp [execute_code, hl, EXECUTION_CONFIG, toolchainCheck, hb, toolchainMissingText,
      LANGUAGE_INSTALL_MESSAGES, (by decide : pyUpper "gcc" = "GCC")]
  · rw [hbmem] at hb
    simp [execute_code, hl, EXECUTION_CONFIG, toolchainCheck, hb, toolchainMissingText,
      LANGUAGE_INSTALL_MESSAGES]
  · rw [hbmem] at hb
    simp [execute_code, hl, EXECUTION_CONFIG, toolchainCheck, hb, toolchainMissingText,
      LANGUAGE_INSTALL_MESSAGES]
  · rw [hbmem] at hb
    simp [execute_code, hl, EXECUTION_CONFIG, toolchainCheck, hb, toolchainMissingText,
      LANGUAGE_INSTALL_MESSAGES]

/-- C7, witness: the theorem applied at php with no binaries available. -/
theorem execute_code_toolchain_missing_witness :
    execute_code noToolEnv "x" "php" =
      (Except.ok ⟨"", some (toolchainMissingText (pyLower "php") ++
        ((LANGUAGE_INSTALL_MESSAGES (pyLower "php")).getD "")), 1, 0⟩,
        ⟨false, false, [], []⟩) :=
  execute_code_toolchain_missing noToolEnv "x" "php" phpConfig rfl ⟨"php", by decide, rfl⟩

/-- C8, counterexample: on the source text `public class` - which contains the declaration keyword but no identifier after it - the scan raises `IndexError` (`parts[1].split()[0]`), so no basename is derived and no fallback occurs: the call returns the generic execution-error result and stages no file, contrary to the claim. -/
theorem extract_class_name_bare_declaration_raises :
    extract_class_name "public class" =
      Except.error (PyExn.other "list index out of range") ∧
    (execute_code baseEnv "public class" "java").1 =
      Except.ok ⟨"", some "Execution error: list index out of range", 1, 0⟩ ∧
    (execute_code baseEnv "public class" "java").2.filesWritten = [] := by
  refine ⟨rfl, rfl, rfl⟩

/-- C8, amended: the staged basename scan equals the declarative description - the first line containing `public class` decides: its first whitespace-separated token after the keyword becomes the basename (stripped), the absence of any such line falls back to `Main`, and a keyword line with no following token raises `IndexError`; and for every successful extraction the staged file is exactly `<tempdir>/<basename>.java` with the source text as content. -/
theorem extract_class_name_characterization :
    (∀ code : String,
      extract_class_name code =
        (match (pySplitOn code "\n").find? (fun line => containsSub line "public class") with
        | none => Except.ok "Main"
        | some line =>
          match pySplitWS ((pySplitOn line "public class").getD 1 "") with
          | [] => Except.error (PyExn.other "list index out of range")
          | tok :: _ => Except.ok (pyStrip tok)))
    ∧ (∀ (env : Env) (code language cn : String),
        pyLower language = "java" →
        toolchainCheck env "java" = none →
        env.mkTempDirExn = none → env.cleanupExn = none →
        (∀ p, env.writeExn p = none) →
        extract_class_name code = Except.ok cn →
        (execute_code env code language).2.filesWritten =
          [(env.tempDirName ++ "/" ++ cn ++ ".java", code)]) := by
  constructor
  · intro code
    exact extract_class_name_go_characterization (pySplitOn code "\n")
  · intro env code language cn hlow htc hmk hcl hw hex
    simp +decide [execute_code, hlow, EXECUTION_CONFIG, htc, hmk, hcl, execute_body, hex,
      writeFileExpl, hw, javaConfig]
    rw [genericCompileStep_filesWritten_java]

/-- C8, witness: `public class Foo` stages `Foo.java`. -/
theorem extract_class_name_characterization_witness :
    (execute_code baseEnv "public class Foo" "java").2.filesWritten =
      [(baseEnv.tempDirName ++ "/" ++ "Foo" ++ ".java", "public class Foo")] :=
  extract_class_name_characterization.2 baseEnv "public class Foo" "java" "Foo"
    rfl rfl rfl rfl (fun _ => rfl) rfl

/-- C9: for every compiler stderr text, the Rust compile-failure error is computed from exactly the lines of the stderr that do not start with `info:` or `warning:` and are not blank, kept in order and re-joined - and when no line survives, the error falls back to `Compilation failed`, so non-fatal advisory text alone never becomes the error of a returned result. -/
theorem execute_code_rust_stderr_filtering (env : Env) (code language cout cerr : String)
    (rcC : Int) (cdur : ℚ)
    (hlow : pyLower language = "rust")
    (htc : toolchainCheck env "rust" = none)
    (hmk : env.mkTempDirExn = none) (hcl : env.cleanupExn = none)
    (hw : ∀ p, env.writeExn p = none)
    (hc0 : env.run 0 = SubOutcome.completes cout cerr rcC cdur) (hcd : cdur ≤ 15)
    (hrc : rcC ≠ 0) :
    (execute_code env code language).1 =
      Except.ok ⟨"", some (if keptLines cerr = [] then "Compilation failed"
        else String.intercalate "\n" (keptLines cerr)), rcC, 0⟩ := by
  have hcd2 : ¬((15 : ℚ) < cdur) := not_lt.mpr hcd
  rw [← pyOr_filterRustStderr]
  simp +decide [execute_code, hlow, EXECUTION_CONFIG, htc, hmk, hcl, execute_body,
    writeFileExpl, hw, genericCompileStep, javaCompileStep, prepareAndRun, rustConfig,
    runFinal, resolveExecHead, runSubExpl, hc0, hcd2, hrc]

/-- C9, witness: a rustc failure whose stderr mixes a warning line with an error line. -/
theorem execute_code_rust_stderr_filtering_witness :
    (execute_code rustWarnEnv "fn main()" "rust").1 =
      Except.ok ⟨"", some (if keptLines "warning: unused\nerror: mismatched types" = []
        then "Compilation failed"
        else String.intercalate "\n" (keptLines "warning: unused\nerror: mismatched types")),
        1, 0⟩ :=
  execute_code_rust_stderr_filtering rustWarnEnv "fn main()" "rust"
    "" "warning: unused\nerror: mismatched types" 1 1
    rfl rfl rfl rfl (fun _ => rfl) rfl (by norm_num) (by norm_num)

/-- C10: when the compile subprocess exits 0, the compiler stderr `cerr` (e.g. warnings) is absent from the returned result - the conclusion does not depend on `cerr`, and output, error, and exit code come solely from the run subprocess. -/
theorem execute_code_successful_compile_stderr_discarded (env : Env) (code language : String)
    (cfg : LangConfig) (cout cerr out err : String) (rc : Int) (cdur dur : ℚ)
    (hcomp : pyLower language = "cpp" ∨ pyLower language = "c" ∨
      pyLower language = "java" ∨ pyLower language = "rust")
    (hcfg : EXECUTION_CONFIG (pyLower language) = some cfg)
    (htc : toolchainCheck env (pyLower language) = none)
    (hmk : env.mkTempDirExn = none) (hcl : env.cleanupExn = none)
    (hw : ∀ p, env.writeExn p = none)
    (hjava : pyLower language = "java" → ∃ cn, extract_class_name code = Except.ok cn)
    (hc0 : env.run 0 = SubOutcome.completes cout cerr 0 cdur) (hcd : cdur ≤ cfg.timeout)
    (hrun : env.run 1 = SubOutcome.completes out err rc dur) (hdur : dur ≤ cfg.timeout) :
    (execute_code env code language).1 =
      Except.ok ⟨out, if rc = 0 then none else some err, rc, round3 dur⟩ := by
  rcases hcomp with hl | hl | hl | hl
  · rw [hl] at htc hcfg
    rw [show EXECUTION_CONFIG "cpp" = some cppConfig from rfl] at hcfg
    injection hcfg with hcfg
    subst hcfg
    have hcd2 : ¬((10 : ℚ) < cdur) := not_lt.mpr hcd
    have hd2 : ¬((10 : ℚ) < dur) := not_lt.mpr hdur
    simp +decide [execute_code, hl, EXECUTION_CONFIG, htc, hmk, hcl, execute_body,
      writeFileExpl, hw, genericCompileStep, javaCompileStep, prepareAndRun, cppConfig,
      formatFileExec, runFinal, resolveExecHead, runSubExpl, hc0, hcd2, hrun, hd2]
  · rw [hl] at htc hcfg
    rw [show EXECUTION_CONFIG "c" = some cConfig from rfl] at hcfg
    injection hcfg with hcfg
    subst hcfg
    have hcd2 : ¬((10 : ℚ) < cdur) := not_lt.mpr hcd
    have hd2 : ¬((10 : ℚ) < dur) := not_lt.mpr hdur
    simp +decide [execute_code, hl, EXECUTION_CONFIG, htc, hmk, hcl, execute_body,
      writeFileExpl, hw, genericCompileStep, javaCompileStep, prepareAndRun, cConfig,
      formatFileExec, runFinal, resolveExecHead, runSubExpl, hc0, hcd2, hrun, hd2]
  · obtain ⟨cn, hcn⟩ := hjava hl
    rw [hl] at htc hcfg
    rw [show EXECUTION_CONFIG "java" = some javaConfig from rfl] at hcfg
    injection hcfg with hcfg
    subst hcfg
    have hcd2 : ¬((10 : ℚ) < cdur) := not_lt.mpr hcd
    have hd2 : ¬((10 : ℚ) < dur) := not_lt.mpr hdur
    simp +decide [execute_code, hl, EXECUTION_CONFIG, htc, hmk, hcl, execute_body, hcn,
      writeFileExpl, hw, genericCompileStep, javaCompileStep, prepareAndRun, javaConfig,
      runFinal, resolveExecHead, runSubExpl, hc0, hcd2, hrun, hd2]
  · rw [hl] at htc hcfg
    rw [show EXECUTION_CONFIG "rust" = some rustConfig from rfl] at hcfg
    injection hcfg with hcfg
    subst hcfg
    have hcd2 : ¬((15 : ℚ) < cdur) := not_lt.mpr hcd
    have hd2 : ¬((15 : ℚ) < dur) := not_lt.mpr hdur
    simp +decide [execute_code, hl, EXECUTION_CONFIG, htc, hmk, hcl, execute_body,
      writeFileExpl, hw, genericCompileStep, javaCompileStep, prepareAndRun, rustConfig,
      runFinal, resolveExecHead, runSubExpl, hc0, hcd2, hrun, hd2]

/-- C10, witness: a cpp compile succeeding with a warning, followed by a clean run. -/
theorem execute_code_successful_compile_stderr_discarded_witness :
    (execute_code compiledEnv "int main(void)" "cpp").1 =
      Except.ok ⟨"ok\n", if (0 : Int) = 0 then none else some "", 0, round3 2⟩ :=
  execute_code_successful_compile_stderr_discarded compiledEnv "int main(void)" "cpp" cppConfig
    "" "warning: unused variable" "ok\n" "" 0 1 2 (Or.inl rfl) rfl rfl rfl rfl (fun _ => rfl)
    (fun h => absurd h (by decide)) rfl (by norm_num [cppConfig]) rfl (by norm_num [cppConfig])

end CodeExecutor
